/-
  Shallow embedding of the AngularForce library (angular-force.js, newer
  revision with orderBy/limit support) and verification of its
  specification claims.

  The library has two parts:
  * the `AngularForce` service: login dispatch across three hosting
    contexts, logout, all populating / clearing the shared session handle
    `SFConfig.client`;
  * the `AngularForceObjectFactory`: builds SOQL/SOSL strings from factory
    parameters and returns an entity class whose CRUD operations forward
    to the forcetk client's REST methods.

  JavaScript objects are modelled as association lists of (property name,
  primitive value); the external forcetk client is modelled by the calls
  made on it (`ClientCall`).
-/
import Mathlib

/-- JavaScript primitive values, as they occur in the library's records.
Here `undefined` stands for the JS value `undefined` (also the result of reading an absent
property). Strict equality `===` on primitives is plain decidable
equality. -/
inductive JSVal where
  | undefined
  | str (s : String)
  | num (n : Int)
  | boolean (b : Bool)
deriving DecidableEq, Repr

/-- JavaScript truthiness of a primitive value: `undefined`, `''`, `0` and
`false` are falsy. -/
def JSVal.truthy : JSVal → Bool
  | .undefined => false
  | .str s => s ≠ ""
  | .num n => n ≠ 0
  | .boolean b => b

/-- A JavaScript object: an association list of own properties. -/
abbrev JSObj := List (String × JSVal)

/-- Property lookup distinguishing an absent property (`none`) from a
property set to `undefined`. -/
def lookupProp : JSObj → String → Option JSVal
  | [], _ => none
  | (k, v) :: rest, f => if f = k then some v else lookupProp rest f

/-- Source: `obj[f]`: reading an absent property yields `undefined`. -/
def objGet (o : JSObj) (f : String) : JSVal :=
  (lookupProp o f).getD .undefined

/-- Whether the object has the property as an own property. -/
def objHas (o : JSObj) (f : String) : Bool :=
  (lookupProp o f).isSome

/-- Source: `delete obj[f]`. -/
def objDel (o : JSObj) (f : String) : JSObj :=
  o.filter (fun p => p.1 ≠ f)

/-- Source: `obj[f] = v` (lookup-equivalent rendering of property assignment). -/
def objSet (o : JSObj) (f : String) (v : JSVal) : JSObj :=
  (f, v) :: objDel o f

/-- Parameters accepted by `AngularForceObjectFactory(params)`.  Absent
parameters are `none` (JavaScript `undefined`).  The source property
`where` is a Lean keyword, rendered `whereC`. -/
structure FactoryParams where
  type : String
  fields : Option (List String)
  whereC : Option String
  limit : Option String
  orderBy : Option String
deriving DecidableEq, Repr

/-- Truthiness check `p && p != ''` applied to an optional string
parameter, as in the factory's clause builders. -/
def optTruthy : Option String → Bool
  | none => false
  | some s => s ≠ ""

/-- Source: `fields = fields && fields.length > 0 ? fields.join(', ') : ''` -/
def fieldsStr (p : FactoryParams) : String :=
  match p.fields with
  | some fs => if fs.length > 0 then String.intercalate ", " fs else ""
  | none => ""

/-- Source: `fieldsArray = angular.isArray(params.fields) ? params.fields : []` -/
def fieldsArrayOf (p : FactoryParams) : List String :=
  p.fields.getD []

/-- Source: `where = where && where != '' ? ' where ' + where : ''` -/
def whereStr : Option String → String
  | none => ""
  | some s => if s ≠ "" then " where " ++ s else ""

/-- Source: `limit = limit && limit != '' ? ' LIMIT ' + limit : 'LIMIT 25'`
(note: the default alternative has no leading space). -/
def limitStr : Option String → String
  | none => "LIMIT 25"
  | some s => if s ≠ "" then " LIMIT " ++ s else "LIMIT 25"

/-- Source: `orderBy = orderBy && orderBy != '' ? ' ORDER BY ' + orderBy : ''` -/
def orderByStr : Option String → String
  | none => ""
  | some s => if s ≠ "" then " ORDER BY " ++ s else ""

/-- Source: `var soql = 'SELECT ' + fields + ' FROM ' + type + where + orderBy + limit` -/
def soql (p : FactoryParams) : String :=
  "SELECT " ++ fieldsStr p ++ " FROM " ++ p.type
    ++ whereStr p.whereC ++ orderByStr p.orderBy ++ limitStr p.limit

/-- The part of the SOQL string before the limit clause (SELECT list, FROM,
where clause, ORDER BY clause, concatenated exactly as in `soql`). -/
def soqlBase (p : FactoryParams) : String :=
  "SELECT " ++ fieldsStr p ++ " FROM " ++ p.type
    ++ whereStr p.whereC ++ orderByStr p.orderBy

/-- Source: `var sosl = 'Find {__SEARCH_TERM_PLACEHOLDER__*} IN ALL FIELDS RETURNING ' + type + ' (' + fields + ')'` -/
def sosl (p : FactoryParams) : String :=
  "Find \x7b__SEARCH_TERM_PLACEHOLDER__*\x7d IN ALL FIELDS RETURNING "
    ++ p.type ++ " (" ++ fieldsStr p ++ ")"

/-- An entity instance built by `function AngularForceObject(props)`:
`angular.copy(props || {}, this)` copies the (primitive) properties into
the instance, and `this._orig = props || {}` stores the original snapshot.
`orig` models the `_orig` property; it is `none` for plain records that
never went through the constructor. -/
structure AngularForceObject where
  fields : JSObj
  orig : Option JSObj
deriving DecidableEq, Repr

/-- Source: `new AngularForceObject(props)`: for primitive-valued `props`,
`angular.copy` coincides with the identity, so the instance carries
`props || {}` both as its own properties and as `_orig`. -/
def AngularForceObject.new (props : Option JSObj) : AngularForceObject :=
  { fields := props.getD [], orig := some (props.getD []) }

/-- The `angular.forEach(fieldsArray, ...)` loop of `getChangedData`,
accumulating `diff` left to right:
`if (field != 'Id' && obj[field] !== orig[field]) diff[field] = obj[field]`. -/
def changedDataAux (cur orig : JSObj) : List String → JSObj → JSObj
  | [], diff => diff
  | field :: rest, diff =>
    changedDataAux cur orig rest
      (if field ≠ "Id" ∧ objGet cur field ≠ objGet orig field
       then objSet diff field (objGet cur field)
       else diff)

/-- Source: `AngularForceObject.getChangedData(obj)`: empty diff when `_orig` is
absent, otherwise the per-field diff over `fieldsArray`. -/
def getChangedData (fieldsArray : List String) (obj : AngularForceObject) : JSObj :=
  match obj.orig with
  | none => []
  | some orig => changedDataAux obj.fields orig fieldsArray []

/-- The `angular.forEach(fieldsArray, ...)` loop of `getNewObjectData`:
`if (field != 'Id') newObj[field] = obj[field]`. -/
def newObjectDataAux (cur : JSObj) : List String → JSObj → JSObj
  | [], acc => acc
  | field :: rest, acc =>
    newObjectDataAux cur rest
      (if field ≠ "Id" then objSet acc field (objGet cur field) else acc)

/-- Source: `AngularForceObject.getNewObjectData(obj)`. -/
def getNewObjectData (fieldsArray : List String) (obj : AngularForceObject) : JSObj :=
  newObjectDataAux obj.fields fieldsArray []

/-- A call made on the forcetk client `SFConfig.client` (the external
client library).  Callbacks are modelled by opaque identifiers (`Nat`);
`successCB`/`failureCB` record which caller-supplied callback the call
receives (the anonymous wrappers of get/save/update are modelled
separately, by the `...SuccessArg` functions below). -/
inductive ClientCall where
  | query (soqlStr : String) (successCB failureCB : Nat)
  | search (soslStr : String) (successCB failureCB : Nat)
  | retrieve (sfType : String) (recordId : JSVal) (fieldList : List String)
      (successCB failureCB : Nat)
  | create (sfType : String) (data : JSObj) (successCB failureCB : Nat)
  | update (sfType : String) (recordId : JSVal) (data : JSObj)
      (successCB failureCB : Nat)
  | del (sfType : String) (recordId : JSVal) (successCB failureCB : Nat)
deriving DecidableEq, Repr

/-- The client-library method a call invokes. -/
def ClientCall.methodName : ClientCall → String
  | .query .. => "query"
  | .search .. => "search"
  | .retrieve .. => "retrieve"
  | .create .. => "create"
  | .update .. => "update"
  | .del .. => "del"

/-- The failure callback a call passes to the client library. -/
def ClientCall.failureCallback : ClientCall → Nat
  | .query _ _ fcb => fcb
  | .search _ _ fcb => fcb
  | .retrieve _ _ _ _ fcb => fcb
  | .create _ _ _ fcb => fcb
  | .update _ _ _ _ fcb => fcb
  | .del _ _ _ fcb => fcb

/-- Source: `AngularForceObject.query`: `SFConfig.client.query(soql, successCB, failureCB)`. -/
def AngularForceObject.query (p : FactoryParams) (successCB failureCB : Nat) : ClientCall :=
  .query (soql p) successCB failureCB

/-- Source: `AngularForceObject.search`: replaces the placeholder in the SOSL
string with `escape(searchTerm)` (the browser's `escape`, modelled as a
parameter `esc`) and calls `SFConfig.client.search`. -/
def AngularForceObject.search (esc : String → String) (p : FactoryParams)
    (searchTerm : String) (successCB failureCB : Nat) : ClientCall :=
  .search ((sosl p).replace "__SEARCH_TERM_PLACEHOLDER__" (esc searchTerm))
    successCB failureCB

/-- Source: `AngularForceObject.get`: `SFConfig.client.retrieve(type, params.id, fieldsArray, wrapper, failureCB)`. -/
def AngularForceObject.get (p : FactoryParams) (paramsId : JSVal)
    (successCB failureCB : Nat) : ClientCall :=
  .retrieve p.type paramsId (fieldsArrayOf p) successCB failureCB

/-- Source: `AngularForceObject.save`: `SFConfig.client.create(type, getNewObjectData(obj), wrapper, failureCB)`. -/
def AngularForceObject.save (p : FactoryParams) (obj : AngularForceObject)
    (successCB failureCB : Nat) : ClientCall :=
  .create p.type (getNewObjectData (fieldsArrayOf p) obj) successCB failureCB

/-- Source: `AngularForceObject.update`: `SFConfig.client.update(type, obj.Id, getChangedData(obj), wrapper, failureCB)`. -/
def AngularForceObject.update (p : FactoryParams) (obj : AngularForceObject)
    (successCB failureCB : Nat) : ClientCall :=
  .update p.type (objGet obj.fields "Id") (getChangedData (fieldsArrayOf p) obj)
    successCB failureCB

/-- Source: `AngularForceObject.remove`: `SFConfig.client.del(type, obj.Id, successCB, failureCB)`. -/
def AngularForceObject.remove (p : FactoryParams) (obj : AngularForceObject)
    (successCB failureCB : Nat) : ClientCall :=
  .del p.type (objGet obj.fields "Id") successCB failureCB

/-- Response data handed to the anonymous success wrappers of
get/save/update: falsy (`empty`), an array, or a non-array object. -/
inductive ResponseData where
  | empty
  | arr (items : List JSObj)
  | obj (o : JSObj)
deriving DecidableEq, Repr

/-- What a success wrapper passes on to the caller-supplied success
callback: a freshly wrapped entity instance, or the raw response. -/
inductive CallbackArg where
  | entity (e : AngularForceObject)
  | raw (d : ResponseData)
deriving DecidableEq, Repr

/-- Success wrapper of `get` and `update`:
`if (data && !angular.isArray(data)) successCB(new AngularForceObject(data)) else successCB(data)`. -/
def wrapSuccessArg (d : ResponseData) : CallbackArg :=
  match d with
  | .obj o => .entity (AngularForceObject.new (some o))
  | d => .raw d

/-- Success wrapper of `save`: additionally, on a non-array object with a
truthy lowercase `id`, runs `data.Id = data.id; delete data.id` before
wrapping. -/
def saveSuccessArg (d : ResponseData) : CallbackArg :=
  match d with
  | .obj o =>
    let o2 := if (objGet o "id").truthy
              then objDel (objSet o "Id" (objGet o "id")) "id"
              else o
    .entity (AngularForceObject.new (some o2))
  | d => .raw d

/-- The forcetk client object stored in `SFConfig.client` once a login
strategy succeeds.  Properties not set by a given strategy stay
`undefined` (`none`). -/
structure ForcetkClient where
  clientId : Option String := none
  loginUrl : Option String := none
  sessionToken : Option String := none
  apiVersion : Option String := none
  instanceUrl : Option String := none
  refreshToken : Option String := none
  serviceURL : Option String := none
deriving DecidableEq, Repr

/-- JavaScript string coercion of a possibly-undefined string, as used in
string concatenation. -/
def jsStr (o : Option String) : String := o.getD "undefined"

/-- The shared configuration / session handle `SFConfig`. -/
structure SFConfigState where
  client : Option ForcetkClient := none
  sessionId : Option String := none
  inVisualforce : Bool := false
  sfLoginURL : Option String := none
  consumerKey : Option String := none
  oAuthCallbackURL : Option String := none
  proxyUrl : Option String := none
deriving DecidableEq, Repr

/-- Source: `SFConfig` at process start: no property has been set, in particular
`SFConfig.client` is absent. -/
def SFConfig.initial : SFConfigState := {}

/-- The hosting context inspected by `AngularForce.login` besides
`SFConfig`: `location.protocol === 'file:'` and presence of the `cordova`
global. -/
structure LoginEnv where
  protocolIsFile : Bool
  cordovaPresent : Bool
deriving DecidableEq, Repr

/-- The outcome of the `AngularForce.login` dispatch:
`alreadyLoggedIn` is the `return callback && callback()` branch (the
supplied callback is invoked, no strategy runs); the other three name the
strategy delegated to (`setCordovaLoginCred`, `loginVF`, `loginWeb`). -/
inductive LoginDispatch where
  | alreadyLoggedIn
  | cordovaStrategy
  | vfStrategy
  | webStrategy
deriving DecidableEq, Repr

/-- Source: `AngularForce.login(callback)`:
`if (SFConfig.client) return callback && callback();`
`if (location.protocol === 'file:' && cordova) return this.setCordovaLoginCred(callback);`
`else if (SFConfig.inVisualforce) return this.loginVF();`
`else return this.loginWeb(callback);` -/
def AngularForce.login (env : LoginEnv) (cfg : SFConfigState) : LoginDispatch :=
  if cfg.client.isSome then .alreadyLoggedIn
  else if env.protocolIsFile && env.cordovaPresent then .cordovaStrategy
  else if cfg.inVisualforce then .vfStrategy
  else .webStrategy

/-- Credentials delivered to the Cordova strategy's session-refresh
handler. -/
structure CordovaCreds where
  clientId : String
  loginUrl : String
  accessToken : String
  instanceUrl : String
  refreshToken : String
deriving DecidableEq, Repr

/-- Success of the Cordova strategy, `salesforceSessionRefreshed(creds)`:
`SFConfig.client = new forcetk.Client(clientId, loginUrl)` followed by
`setSessionToken(accessToken, apiVersion, instanceUrl)` and
`setRefreshToken(refreshToken)`.  `apiVersion` is the free global of the
same name. -/
def salesforceSessionRefreshed (apiVersion : String) (creds : CordovaCreds)
    (cfg : SFConfigState) : SFConfigState :=
  let c : ForcetkClient :=
    { clientId := some creds.clientId
      loginUrl := some creds.loginUrl
      sessionToken := some creds.accessToken
      apiVersion := some apiVersion
      instanceUrl := some creds.instanceUrl
      refreshToken := some creds.refreshToken }
  { cfg with client := some c }

/-- The Visualforce strategy `AngularForce.loginVF`:
`SFConfig.client = new forcetk.Client(); SFConfig.client.setSessionToken(SFConfig.sessionId)`. -/
def AngularForce.loginVF (cfg : SFConfigState) : SFConfigState :=
  { cfg with client := some { sessionToken := cfg.sessionId } }

/-- Success of the web strategy, `forceOAuthUI_successHandler(forcetkClient)`
inside `getForceTKClientUI`: stores the client and sets its `serviceURL`
from `instanceUrl` and `apiVersion`. -/
def forceOAuthUI_successHandler (forcetkClient : ForcetkClient)
    (cfg : SFConfigState) : SFConfigState :=
  let url : String :=
    jsStr forcetkClient.instanceUrl ++ "/services/data/"
      ++ jsStr forcetkClient.apiVersion
  let c : ForcetkClient := { forcetkClient with serviceURL := some url }
  { cfg with client := some c }

/-- Source: `AngularForce.logout(callback)`: when a client is present, hands it to
a forcetk.ClientUI for the remote logout and sets `SFConfig.client` to
null; otherwise does nothing. -/
def AngularForce.logout (cfg : SFConfigState) : SFConfigState :=
  if cfg.client.isSome then { cfg with client := none } else cfg

/-- The effect `this.setCordovaLoginCred(callback)` has before its
asynchronous handlers run: either the thrown string, or the call made on
the cordova plugin (`cordova.require('salesforce/plugin/oauth').getAuthCredentials(...)`). -/
inductive CordovaAction where
  | getAuthCredentials (plugin : String)
deriving DecidableEq, Repr

/-- Source: `AngularForce.setCordovaLoginCred`:
`if (!cordova) throw 'Cordova/PhoneGap not found.';` then the plugin call. -/
def AngularForce.setCordovaLoginCred (cordovaPresent : Bool) :
    Except String CordovaAction :=
  if !cordovaPresent then .error "Cordova/PhoneGap not found."
  else .ok (.getAuthCredentials "salesforce/plugin/oauth")

/-- What `AngularForce.loginWeb` does when it does not throw: invoke the
callback directly (already logged in) or start the forcetk.ui login. -/
inductive WebLoginAction where
  | invokeCallback
  | ftkClientUILogin
deriving DecidableEq, Repr

/-- Source: `AngularForce.loginWeb(callback)`:
`if (!SFConfig) throw 'Must set app.SFConfig where app is your AngularJS app';`
`if (SFConfig.client) return callback && callback();`
`getForceTKClientUI().login(callback)`. -/
def AngularForce.loginWeb (sfConfigPresent : Bool) (cfg : SFConfigState) :
    Except String WebLoginAction :=
  if !sfConfigPresent then
    .error "Must set app.SFConfig where app is your AngularJS app"
  else if cfg.client.isSome then .ok .invokeCallback
  else .ok .ftkClientUILogin

/-- The operations of the service and of a generated entity class that
touch (or could touch) `SFConfig`: the three login-strategy successes,
logout, the `authenticated` getter, and the six entity CRUD operations. -/
inductive AFOp where
  | authenticated
  | loginVFOp
  | cordovaSessionRefresh (apiVersion : String) (creds : CordovaCreds)
  | webOAuthSuccess (c : ForcetkClient)
  | logoutOp
  | objQuery (scb fcb : Nat)
  | objSearch (term : String) (scb fcb : Nat)
  | objGetOp (pid : JSVal) (scb fcb : Nat)
  | objSave (o : AngularForceObject) (scb fcb : Nat)
  | objUpdate (o : AngularForceObject) (scb fcb : Nat)
  | objRemove (o : AngularForceObject) (scb fcb : Nat)
deriving DecidableEq, Repr

/-- Effect of each operation on `SFConfig`.  The entity CRUD operations
and `authenticated` only read `SFConfig.client` (to call the client's
REST methods); their bodies contain no assignment to it, so they leave the
state unchanged. -/
def AFStep (cfg : SFConfigState) : AFOp → SFConfigState
  | .authenticated => cfg
  | .loginVFOp => AngularForce.loginVF cfg
  | .cordovaSessionRefresh v creds => salesforceSessionRefreshed v creds cfg
  | .webOAuthSuccess c => forceOAuthUI_successHandler c cfg
  | .logoutOp => AngularForce.logout cfg
  | .objQuery _ _ => cfg
  | .objSearch _ _ _ => cfg
  | .objGetOp _ _ _ => cfg
  | .objSave _ _ _ => cfg
  | .objUpdate _ _ _ => cfg
  | .objRemove _ _ _ => cfg

/-- Whether an operation is the success of a login strategy. -/
def AFOp.isLoginSuccess : AFOp → Bool
  | .loginVFOp => true
  | .cordovaSessionRefresh _ _ => true
  | .webOAuthSuccess _ => true
  | _ => false

/-- Whether an operation is the logout operation. -/
def AFOp.isLogoutOp : AFOp → Bool
  | .logoutOp => true
  | _ => false

/-- A clause string is separated from the preceding text by whitespace
when it is absent or starts with a space character. -/
def clauseSeparated (s : String) : Prop :=
  s.data = [] ∨ s.data.head? = some ' '

/- ======================= helper lemmas ======================= -/

theorem lookupProp_objDel_ne (o : JSObj) {f k : String} (h : f ≠ k) :
    lookupProp (objDel o k) f = lookupProp o f := by
  induction o with
  | nil => rfl
  | cons p rest ih =>
    rcases p with ⟨k2, v2⟩
    by_cases hk : k2 = k
    · subst hk
      have : f ≠ k2 := h
      simp [objDel, List.filter_cons, lookupProp, this, ih] at *
      simpa [objDel] using ih
    · by_cases hf : f = k2
      · subst hf
        simp [objDel, List.filter_cons, lookupProp, hk]
      · simp [objDel, List.filter_cons, lookupProp, hk, hf]
        simpa [objDel] using ih

theorem lookupProp_objDel_self (o : JSObj) (k : String) :
    lookupProp (objDel o k) k = none := by
  induction o with
  | nil => rfl
  | cons p rest ih =>
    rcases p with ⟨k2, v2⟩
    by_cases hk : k2 = k
    · subst hk
      simpa [objDel, List.filter_cons] using ih
    · have : k ≠ k2 := fun h => hk h.symm
      simp [objDel, List.filter_cons, lookupProp, hk, this]
      simpa [objDel] using ih

theorem lookupProp_objSet (o : JSObj) (k f : String) (v : JSVal) :
    lookupProp (objSet o k v) f = if f = k then some v else lookupProp o f := by
  by_cases h : f = k
  · subst h
    simp [objSet, lookupProp]
  · simp [objSet, lookupProp, h, lookupProp_objDel_ne o h]

theorem mem_cons_resolve {α : Type} {a b : α} {l : List α}
    (h : a ∈ b :: l) (hne : a ≠ b) : a ∈ l := by
  rcases List.mem_cons.mp h with h1 | h1
  · exact absurd h1 hne
  · exact h1

theorem changedDataAux_lookup (cur orig : JSObj) (fs : List String)
    (acc : JSObj) (f : String) :
    lookupProp (changedDataAux cur orig fs acc) f =
      if f ∈ fs ∧ f ≠ "Id" ∧ objGet cur f ≠ objGet orig f
      then some (objGet cur f)
      else lookupProp acc f := by
  induction fs generalizing acc with
  | nil => simp [changedDataAux]
  | cons g rest ih =>
    simp only [changedDataAux]
    rw [ih]
    by_cases hf : f ∈ rest ∧ f ≠ "Id" ∧ objGet cur f ≠ objGet orig f
    · rw [if_pos hf, if_pos ⟨List.mem_cons_of_mem g hf.1, hf.2⟩]
    · rw [if_neg hf]
      by_cases hg : g ≠ "Id" ∧ objGet cur g ≠ objGet orig g
      · rw [if_pos hg, lookupProp_objSet]
        by_cases hfg : f = g
        · subst hfg
          rw [if_pos rfl, if_pos ⟨List.mem_cons_self f rest, hg⟩]
        · rw [if_neg hfg, if_neg (fun hc => hf ⟨mem_cons_resolve hc.1 hfg, hc.2⟩)]
      · rw [if_neg hg]
        by_cases hfg : f = g
        · subst hfg
          rw [if_neg (fun hc => hg hc.2)]
        · rw [if_neg (fun hc => hf ⟨mem_cons_resolve hc.1 hfg, hc.2⟩)]

theorem changedDataAux_self (cur : JSObj) (fs : List String) (acc : JSObj) :
    changedDataAux cur cur fs acc = acc := by
  induction fs generalizing acc with
  | nil => rfl
  | cons g rest ih =>
    simp only [changedDataAux]
    rw [if_neg (fun hc => hc.2 rfl)]
    exact ih acc

/-- Sample factory parameters: no where/orderBy/limit. -/
def sampleNoLimit : FactoryParams :=
  { type := "Account", fields := some ["Name"], whereC := none,
    limit := none, orderBy := none }

/-- Sample factory parameters with an explicit limit of 5. -/
def sampleLimit5 : FactoryParams :=
  { type := "Account", fields := some ["Name"], whereC := none,
    limit := some "5", orderBy := none }

/-- Sample factory parameters with an explicit limit of 7. -/
def sampleLimit7 : FactoryParams :=
  { type := "Account", fields := some ["Name"], whereC := none,
    limit := some "7", orderBy := none }

/- ======================= claim theorems ======================= -/

/-- C2: For every entity object, the field diff computed by
`AngularForceObject.getChangedData` never contains the identifier field
`Id`, even when the object's current `Id` value differs from the original
snapshot's `Id` value. -/
theorem getChangedData_excludes_Id (fieldsArray : List String)
    (obj : AngularForceObject) :
    lookupProp (getChangedData fieldsArray obj) "Id" = none := by
  unfold getChangedData
  cases h : obj.orig with
  | none => rfl
  | some orig =>
    rw [changedDataAux_lookup]
    rw [if_neg (fun hc => hc.2.1 rfl)]
    rfl

/-- C3: For every entity object with an original snapshot, `update` sends
to the client's `update` method exactly the diff against the original:
the listed fields other than `Id` whose current value differs by strict
inequality from the snapshot value, each mapped to its current value, and
no other fields. -/
theorem update_sends_exact_diff (p : FactoryParams) (obj : AngularForceObject)
    (orig : JSObj) (scb fcb : Nat) (h : obj.orig = some orig) :
    AngularForceObject.update p obj scb fcb
      = ClientCall.update p.type (objGet obj.fields "Id")
          (getChangedData (fieldsArrayOf p) obj) scb fcb
    ∧ ∀ f, lookupProp (getChangedData (fieldsArrayOf p) obj) f =
        (if f ∈ fieldsArrayOf p ∧ f ≠ "Id" ∧ objGet obj.fields f ≠ objGet orig f
         then some (objGet obj.fields f) else none) := by
  have hgc : getChangedData (fieldsArrayOf p) obj
      = changedDataAux obj.fields orig (fieldsArrayOf p) [] := by
    unfold getChangedData
    rw [h]
  refine ⟨rfl, fun f => ?_⟩
  rw [hgc, changedDataAux_lookup]
  rfl

/-- Witness for C3 at a concrete factory and object. -/
theorem update_sends_exact_diff_witness :
    AngularForceObject.update
        { type := "Account", fields := some ["Name", "Id"], whereC := none,
          limit := none, orderBy := none }
        { fields := [("Name", JSVal.str "b"), ("Id", JSVal.str "2")],
          orig := some [("Name", JSVal.str "a"), ("Id", JSVal.str "1")] } 0 1
      = ClientCall.update "Account" (JSVal.str "2")
          (getChangedData ["Name", "Id"]
            { fields := [("Name", JSVal.str "b"), ("Id", JSVal.str "2")],
              orig := some [("Name", JSVal.str "a"), ("Id", JSVal.str "1")] }) 0 1
    ∧ lookupProp (getChangedData ["Name", "Id"]
          { fields := [("Name", JSVal.str "b"), ("Id", JSVal.str "2")],
            orig := some [("Name", JSVal.str "a"), ("Id", JSVal.str "1")] }) "Name"
        = some (JSVal.str "b") := by
  have h := update_sends_exact_diff
    { type := "Account", fields := some ["Name", "Id"], whereC := none,
      limit := none, orderBy := none }
    { fields := [("Name", JSVal.str "b"), ("Id", JSVal.str "2")],
      orig := some [("Name", JSVal.str "a"), ("Id", JSVal.str "1")] }
    [("Name", JSVal.str "a"), ("Id", JSVal.str "1")] 0 1 rfl
  exact ⟨h.1, (h.2 "Name").trans (by decide)⟩

/-- C10: constructing and immediately diffing round-trips to the empty
diff (all modelled field values are primitives, so strict equality is
value equality); and any object lacking `_orig` diffs to the empty
record. -/
theorem getChangedData_new_empty (fieldsArray : List String) (props : JSObj) :
    getChangedData fieldsArray (AngularForceObject.new (some props)) = []
    ∧ ∀ obj : AngularForceObject, obj.orig = none →
        getChangedData fieldsArray obj = [] := by
  constructor
  · show changedDataAux props props fieldsArray [] = []
    exact changedDataAux_self props fieldsArray []
  · intro obj h
    unfold getChangedData
    rw [h]

/-- Witness for C10 at a concrete props record and a record without
`_orig`. -/
theorem getChangedData_new_empty_witness :
    getChangedData ["Name", "Id"]
        (AngularForceObject.new (some [("Name", JSVal.str "a"), ("Id", JSVal.str "1")])) = []
    ∧ getChangedData ["Name", "Id"]
        { fields := [("Name", JSVal.str "a")], orig := none } = [] := by
  have h := getChangedData_new_empty ["Name", "Id"]
    [("Name", JSVal.str "a"), ("Id", JSVal.str "1")]
  exact ⟨h.1, h.2 { fields := [("Name", JSVal.str "a")], orig := none } rfl⟩

/-- C6: when a required runtime dependency is missing the operation throws
an ad hoc string before making any client-library call:
`setCordovaLoginCred` throws `'Cordova/PhoneGap not found.'` when the
`cordova` global is absent, and `loginWeb` throws a string when `SFConfig`
is absent (the `Except.error` results carry no client or plugin action). -/
theorem missing_dependency_throws_string :
    AngularForce.setCordovaLoginCred false
        = Except.error "Cordova/PhoneGap not found."
    ∧ ∀ cfg : SFConfigState, AngularForce.loginWeb false cfg
        = Except.error "Must set app.SFConfig where app is your AngularJS app" :=
  ⟨rfl, fun _ => rfl⟩

/-- C7: every CRUD operation of a generated entity class forwards to the
corresponding REST method of the shared client (`query`/`search`/
`retrieve`/`create`/`update`/`del`) and passes the caller-supplied
failure callback through verbatim. -/
theorem crud_forwards_failure_callback (p : FactoryParams)
    (esc : String → String) (term : String) (obj : AngularForceObject)
    (pid : JSVal) (scb fcb : Nat) :
    ((AngularForceObject.query p scb fcb).methodName = "query"
      ∧ (AngularForceObject.query p scb fcb).failureCallback = fcb)
    ∧ ((AngularForceObject.search esc p term scb fcb).methodName = "search"
      ∧ (AngularForceObject.search esc p term scb fcb).failureCallback = fcb)
    ∧ ((AngularForceObject.get p pid scb fcb).methodName = "retrieve"
      ∧ (AngularForceObject.get p pid scb fcb).failureCallback = fcb)
    ∧ ((AngularForceObject.save p obj scb fcb).methodName = "create"
      ∧ (AngularForceObject.save p obj scb fcb).failureCallback = fcb)
    ∧ ((AngularForceObject.update p obj scb fcb).methodName = "update"
      ∧ (AngularForceObject.update p obj scb fcb).failureCallback = fcb)
    ∧ ((AngularForceObject.remove p obj scb fcb).methodName = "del"
      ∧ (AngularForceObject.remove p obj scb fcb).failureCallback = fcb) :=
  ⟨⟨rfl, rfl⟩, ⟨rfl, rfl⟩, ⟨rfl, rfl⟩, ⟨rfl, rfl⟩, ⟨rfl, rfl⟩, rfl, rfl⟩

/-- Counterexample to C1 as stated: with the limit parameter absent, the
default clause `LIMIT 25` is present in the generated SOQL string but is
not separated from the preceding text by whitespace (the string reads
`... FROM AccountLIMIT 25`). -/
theorem soql_default_limit_unseparated :
    soql sampleNoLimit = "SELECT Name FROM AccountLIMIT 25"
    ∧ ¬ clauseSeparated (limitStr none) := by
  constructor
  · rfl
  · intro h
    rcases h with h | h
    · exact absurd h (by decide)
    · exact absurd h (by decide)

/-- C1 (amended): the SOQL string concatenates its clauses in the
documented order (SELECT field list, FROM with the type name, where,
ORDER BY, LIMIT) and `query` issues exactly this string; the where and
ORDER BY clauses, when present, are separated from the preceding text by
whitespace, and so is the LIMIT clause when a non-empty limit parameter
is supplied — but the default `LIMIT 25` (limit absent or empty) is
appended without a separating space. -/
theorem soql_clause_order (p : FactoryParams) :
    soql p = "SELECT " ++ fieldsStr p ++ " FROM " ++ p.type
        ++ whereStr p.whereC ++ orderByStr p.orderBy ++ limitStr p.limit
    ∧ clauseSeparated (whereStr p.whereC)
    ∧ clauseSeparated (orderByStr p.orderBy)
    ∧ (optTruthy p.limit = true → clauseSeparated (limitStr p.limit))
    ∧ (optTruthy p.limit = false → limitStr p.limit = "LIMIT 25")
    ∧ ∀ scb fcb, AngularForceObject.query p scb fcb
        = ClientCall.query (soql p) scb fcb := by
  refine ⟨rfl, ?_, ?_, ?_, ?_, fun _ _ => rfl⟩
  · rcases p.whereC with _ | s
    · exact Or.inl rfl
    · by_cases hs : s = ""
      · exact Or.inl (by simp [whereStr, hs])
      · exact Or.inr (by simp [whereStr, hs, String.data_append])
  · rcases p.orderBy with _ | s
    · exact Or.inl rfl
    · by_cases hs : s = ""
      · exact Or.inl (by simp [orderByStr, hs])
      · exact Or.inr (by simp [orderByStr, hs, String.data_append])
  · intro ht
    rcases hl : p.limit with _ | s
    · rw [hl] at ht
      exact absurd ht (by decide)
    · rw [hl] at ht
      have hne : s ≠ "" := of_decide_eq_true ht
      exact Or.inr (by simp [limitStr, hne, String.data_append])
  · intro hf
    rcases hl : p.limit with _ | s
    · rfl
    · rw [hl] at hf
      have hs : s = "" := not_not.mp (of_decide_eq_false hf)
      simp [limitStr, hs]

/-- Witness for the amended C1: a supplied limit yields a
whitespace-separated LIMIT clause; an absent limit yields `LIMIT 25`. -/
theorem soql_clause_order_witness :
    clauseSeparated (limitStr (some "5"))
    ∧ limitStr (none : Option String) = "LIMIT 25" := by
  refine ⟨?_, ?_⟩
  · exact (soql_clause_order sampleLimit5).2.2.2.1 (by decide)
  · exact (soql_clause_order sampleNoLimit).2.2.2.2.1 (by decide)

/-- C8: when the limit parameter is absent or empty the generated SOQL
string is the preceding clauses with `LIMIT 25` appended directly (no
separating space); with a non-empty limit it is the preceding clauses
with ` LIMIT ` and that value appended; and `query` always issues this
string, so every query carries a LIMIT clause. -/
theorem soql_limit_default (p : FactoryParams) :
    ((p.limit = none ∨ p.limit = some "") → soql p = soqlBase p ++ "LIMIT 25")
    ∧ (∀ s, p.limit = some s → s ≠ "" →
        soql p = soqlBase p ++ (" LIMIT " ++ s))
    ∧ (∀ scb fcb, AngularForceObject.query p scb fcb
        = ClientCall.query (soql p) scb fcb) := by
  refine ⟨?_, ?_, fun _ _ => rfl⟩
  · intro h
    have hl : limitStr p.limit = "LIMIT 25" := by
      rcases h with h | h <;> rw [h] <;> simp [limitStr]
    show soqlBase p ++ limitStr p.limit = soqlBase p ++ "LIMIT 25"
    rw [hl]
  · intro s hs hne
    have hl : limitStr p.limit = " LIMIT " ++ s := by
      rw [hs]
      simp [limitStr, hne]
    show soqlBase p ++ limitStr p.limit = soqlBase p ++ (" LIMIT " ++ s)
    rw [hl]

/-- Witness for C8: the default and the explicit limit at concrete
factory parameters. -/
theorem soql_limit_default_witness :
    soql sampleNoLimit = soqlBase sampleNoLimit ++ "LIMIT 25"
    ∧ soql sampleLimit7 = soqlBase sampleLimit7 ++ (" LIMIT " ++ "7") := by
  refine ⟨?_, ?_⟩
  · exact (soql_limit_default sampleNoLimit).1 (Or.inl rfl)
  · exact (soql_limit_default sampleLimit7).2.1 "7" rfl (by decide)

/-- Counterexample to C9 as stated: a non-array response object carrying a
lowercase `id` property whose value is the empty string (falsy) is NOT
renamed — the wrapped entity keeps the `id` property and has no `Id` —
because the code tests `if (data.id)`, i.e. truthiness, not presence. -/
theorem save_empty_id_not_renamed :
    saveSuccessArg (.obj [("id", JSVal.str "")])
      = .entity (AngularForceObject.new (some [("id", JSVal.str "")]))
    ∧ objHas (AngularForceObject.new (some [("id", JSVal.str "")])).fields "id" = true
    ∧ lookupProp
        (AngularForceObject.new (some [("id", JSVal.str "")])).fields "Id" = none := by
  refine ⟨rfl, rfl, rfl⟩

/-- C9 (amended): for every successful save whose response data is a
non-array object carrying a truthy lowercase `id` (the code tests
`if (data.id)`), the entity passed to the success callback has that value
under `Id` and no `id` property; objects whose `id` is absent or falsy
are wrapped unchanged; array or empty responses are passed as-is. -/
theorem save_success_renames_id (o : JSObj) :
    ((objGet o "id").truthy = true →
      ∃ e, saveSuccessArg (.obj o) = CallbackArg.entity e
        ∧ objGet e.fields "Id" = objGet o "id"
        ∧ objHas e.fields "id" = false)
    ∧ ((objGet o "id").truthy = false →
        saveSuccessArg (.obj o) = .entity (AngularForceObject.new (some o)))
    ∧ (∀ xs, saveSuccessArg (.arr xs) = .raw (.arr xs))
    ∧ saveSuccessArg .empty = .raw .empty := by
  refine ⟨?_, ?_, fun _ => rfl, rfl⟩
  · intro ht
    refine ⟨AngularForceObject.new
      (some (objDel (objSet o "Id" (objGet o "id")) "id")), ?_, ?_, ?_⟩
    · simp [saveSuccessArg, ht]
    · show objGet (objDel (objSet o "Id" (objGet o "id")) "id") "Id"
        = objGet o "id"
      unfold objGet
      rw [lookupProp_objDel_ne _ (by decide), lookupProp_objSet, if_pos rfl]
      rfl
    · show objHas (objDel (objSet o "Id" (objGet o "id")) "id") "id" = false
      unfold objHas
      rw [lookupProp_objDel_self]
      rfl
  · intro hf
    simp [saveSuccessArg, hf]

/-- Witness for the amended C9 at a concrete response object. -/
theorem save_success_renames_id_witness :
    ∃ e, saveSuccessArg (.obj [("id", JSVal.str "001")]) = CallbackArg.entity e
      ∧ objGet e.fields "Id" = objGet [("id", JSVal.str "001")] "id"
      ∧ objHas e.fields "id" = false :=
  (save_success_renames_id [("id", JSVal.str "001")]).1 (by decide)

/-- C4: `AngularForce.login` invokes the supplied callback and runs no
strategy when a client is already present; otherwise it selects exactly
one of the three strategies by hosting context (Cordova on a file: URL
with cordova present, Visualforce when the flag on `SFConfig` is set, web
otherwise); and each strategy, on success, populates `SFConfig.client`. -/
theorem login_dispatch (env : LoginEnv) (cfg : SFConfigState) :
    (cfg.client.isSome = true → AngularForce.login env cfg = .alreadyLoggedIn)
    ∧ (cfg.client = none → (env.protocolIsFile && env.cordovaPresent) = true →
        AngularForce.login env cfg = .cordovaStrategy)
    ∧ (cfg.client = none → (env.protocolIsFile && env.cordovaPresent) = false →
        cfg.inVisualforce = true → AngularForce.login env cfg = .vfStrategy)
    ∧ (cfg.client = none → (env.protocolIsFile && env.cordovaPresent) = false →
        cfg.inVisualforce = false → AngularForce.login env cfg = .webStrategy)
    ∧ (∀ c2 : SFConfigState, (AngularForce.loginVF c2).client.isSome = true)
    ∧ (∀ v creds c2, (salesforceSessionRefreshed v creds c2).client.isSome = true)
    ∧ (∀ fc c2, (forceOAuthUI_successHandler fc c2).client.isSome = true) := by
  refine ⟨?_, ?_, ?_, ?_, fun c2 => rfl, fun v creds c2 => rfl, fun fc c2 => rfl⟩
  · intro h
    simp [AngularForce.login, h]
  · intro h1 h2
    simp [AngularForce.login, h1, h2]
  · intro h1 h2 h3
    simp [AngularForce.login, h1, h2, h3]
  · intro h1 h2 h3
    simp [AngularForce.login, h1, h2, h3]

/-- Witness for C4 at concrete contexts: each of the four dispatch
outcomes is reached. -/
theorem login_dispatch_witness :
    AngularForce.login { protocolIsFile := false, cordovaPresent := false }
        SFConfig.initial = LoginDispatch.webStrategy
    ∧ AngularForce.login { protocolIsFile := true, cordovaPresent := true }
        SFConfig.initial = LoginDispatch.cordovaStrategy
    ∧ AngularForce.login { protocolIsFile := false, cordovaPresent := false }
        { SFConfig.initial with inVisualforce := true } = LoginDispatch.vfStrategy
    ∧ AngularForce.login { protocolIsFile := false, cordovaPresent := false }
        (AngularForce.loginVF SFConfig.initial) = LoginDispatch.alreadyLoggedIn := by
  refine ⟨?_, ?_, ?_, ?_⟩
  · exact (login_dispatch _ _).2.2.2.1 rfl rfl rfl
  · exact (login_dispatch _ _).2.1 rfl rfl
  · exact (login_dispatch _ _).2.2.1 rfl rfl rfl
  · exact (login_dispatch _ _).1 rfl

/-- C5: lifecycle of the session handle: `SFConfig.client` is absent at
start; each login-strategy success sets it to a non-null client; after
`logout` on a state with a client present it is null; and no other
operation of the service or of the generated entity classes changes it. -/
theorem sfclient_lifecycle :
    SFConfig.initial.client = none
    ∧ (∀ cfg, (AngularForce.loginVF cfg).client.isSome = true)
    ∧ (∀ v creds cfg, (salesforceSessionRefreshed v creds cfg).client.isSome = true)
    ∧ (∀ c cfg, (forceOAuthUI_successHandler c cfg).client.isSome = true)
    ∧ (∀ cfg, cfg.client.isSome = true → (AngularForce.logout cfg).client = none)
    ∧ (∀ cfg op, AFOp.isLoginSuccess op = false → AFOp.isLogoutOp op = false →
        (AFStep cfg op).client = cfg.client) := by
  refine ⟨rfl, fun _ => rfl, fun _ _ _ => rfl, fun _ _ => rfl, ?_, ?_⟩
  · intro cfg h
    simp [AngularForce.logout, h]
  · intro cfg op h1 h2
    cases op <;> simp_all [AFStep, AFOp.isLoginSuccess, AFOp.isLogoutOp]

/-- Witness for C5: logout clears a present client; an entity query leaves
the handle untouched. -/
theorem sfclient_lifecycle_witness :
    (AngularForce.logout { client := some {} }).client = none
    ∧ (AFStep { client := some {} } (AFOp.objQuery 0 1)).client
        = some ({} : ForcetkClient) := by
  refine ⟨?_, ?_⟩
  · exact sfclient_lifecycle.2.2.2.2.1 { client := some {} } rfl
  · exact sfclient_lifecycle.2.2.2.2.2 { client := some {} } (AFOp.objQuery 0 1) rfl rfl
